import Mathlib

/-!
# Verification of the API spec linter (`linter.py`)

A shallow embedding of the linter in `src/linter.py`: a code-side route
extractor (`parse_api_routes`), a spec-side endpoint extractor
(`parse_api_spec`), and the reconciliation loop inlined in `run_linter`.

Modelling conventions:
* A parsed Python source file is represented by the list of its
  `ast.FunctionDef` nodes in `ast.walk` order (`List FunctionDef`); the
  walk's non-function nodes are skipped by the source (`continue`) and are
  therefore not represented.
* `node.args.args` is the declared positional-parameter name list,
  verbatim; for a method this list contains the receiver name
  (e.g. `self`), because Python declares it explicitly.
* A decorator is a `Decorator`: either a call whose callee may or may not
  be an attribute access (`ast.Call` whose `func` is an `ast.Attribute`
  with a given `attr`), or anything else (`plain`).
* A decorator's positional argument is a `PyExpr`: a static string
  literal (`ast.Constant`, whose `.value` is the string), or a
  runtime-computed expression such as an `ast.Name` (which has no
  `.value` attribute, so accessing `.value` raises `AttributeError`).
* Python runtime errors that the linter can hit are the constructors of
  `PyErr`; `except KeyError` in `parse_api_spec` catches exactly
  `PyErr.keyError`.
* Python `dict` is an insertion-ordered association list with
  update-in-place on an existing key (`dictInsert`).
* Python `set` of strings is `Finset String`; `a - b` is `Finset.sdiff`,
  `x in s` (for a string in a string) is the substring test `strIn`.
* Curly braces inside string literals are written with the escapes
  `\x7b` (left brace) and `\x7d` (right brace).
-/

deriving instance DecidableEq for Except

namespace ApiLinter

/-- Python `s.replace(a, b)` for a one-character pattern and replacement:
an elementwise character map over the string. -/
def pyReplaceChar (s : String) (a b : Char) : String :=
  ⟨s.data.map (fun c => if c = a then b else c)⟩

/-- Line 56 of `linter.py`:
`normalized_path = path.replace("\x7b", "<").replace("\x7d", ">")`. -/
def normalize (p : String) : String :=
  pyReplaceChar (pyReplaceChar p '\x7b' '<') '\x7d' '>'

/-- `needle` is a contiguous leading segment of `hay`. -/
def startsB : List Char → List Char → Bool
  | [], _ => true
  | _ :: _, [] => false
  | a :: as, b :: bs => a == b && startsB as bs

/-- `needle` occurs contiguously somewhere in `hay`. -/
def insideB (needle : List Char) : List Char → Bool
  | [] => startsB needle []
  | hay@(_ :: rest) => startsB needle hay || insideB needle rest

/-- Python `needle in hay` for strings: contiguous substring test. -/
def strIn (needle hay : String) : Bool :=
  insideB needle.data hay.data

/-- A Python set of parameter names. -/
abbrev ParamSet := Finset String

/-- A Python dict from route path to parameter set, as an
insertion-ordered association list with unique keys. -/
abbrev RouteTable := List (String × ParamSet)

/-- `d[k] = v` on a Python dict: update in place when the key exists,
append otherwise. -/
def dictInsert (d : RouteTable) (k : String) (v : ParamSet) : RouteTable :=
  if d.any (fun kv => kv.1 == k) then
    d.map (fun kv => if kv.1 == k then (k, v) else kv)
  else
    d ++ [(k, v)]

/-- `d.get(k)` / `k in d` on a Python dict. -/
def dictGet (d : RouteTable) (k : String) : Option ParamSet :=
  (d.find? (fun kv => kv.1 == k)).map (·.2)

/-- Python runtime errors the linter can raise. -/
inductive PyErr where
  | indexError
  | attributeError
  | typeError
  | keyError
deriving DecidableEq

/-- A decorator's positional argument: a static string literal
(`ast.Constant` carrying a string), or a runtime-computed expression
such as a bare name (`ast.Name`), which has no `.value` attribute. -/
inductive PyExpr where
  | constStr (s : String)
  | nameExpr (id : String)
deriving DecidableEq

/-- One entry of `node.decorator_list`: a call whose callee is (or is
not) an attribute access with attribute name `attrName`, or any
non-call decorator. -/
inductive Decorator where
  | call (funcIsAttr : Bool) (attrName : String) (args : List PyExpr)
  | plain
deriving DecidableEq

/-- An `ast.FunctionDef` node: name, `node.args.args` (the declared
positional-parameter names, verbatim, receiver included for methods),
and `node.decorator_list`. -/
structure FunctionDef where
  name : String
  argNames : List String
  decorator_list : List Decorator

/-- Line 31 of `linter.py`: `decorator.args[0].value`. An empty
argument list raises `IndexError`; a non-literal first argument (e.g.
an `ast.Name`) has no `.value` and raises `AttributeError`. -/
def firstArgValue : List PyExpr → Except PyErr String
  | [] => .error .indexError
  | .constStr s :: _ => .ok s
  | .nameExpr _ :: _ => .error .attributeError

/-- Lines 25-38 of `linter.py`: scan one function's decorator list; on
the first decorator that is a call on an attribute named `route`, read
its first argument as the path, record `set(params)` for it in the
dict, and `break`. Errors reading the first argument propagate. -/
def visitDecorators (routes : RouteTable) (f : FunctionDef) :
    List Decorator → Except PyErr RouteTable
  | [] => .ok routes
  | d :: ds =>
    match d with
    | .call true a as =>
      if a == "route" then
        match firstArgValue as with
        | .ok path => .ok (dictInsert routes path f.argNames.toFinset)
        | .error e => .error e
      else visitDecorators routes f ds
    | _ => visitDecorators routes f ds

/-- Lines 8-40 of `linter.py` (`parse_api_routes`), after the file has
been read and parsed: fold over the `FunctionDef` nodes in walk order,
building the route dict; any raised error aborts the whole extraction. -/
def parse_api_routes (tree : List FunctionDef) : Except PyErr RouteTable :=
  tree.foldlM (fun r f => visitDecorators r f f.decorator_list) []

/-- A JSON value as far as the spec extractor distinguishes them: an
object (ordered fields), or any non-object value (string, number,
array, bool, null), on which string indexing raises `TypeError` and
`.keys()` raises `AttributeError`. -/
inductive JVal where
  | obj (fields : List (String × JVal))
  | prim

/-- Python `v[k]` for a string key: field lookup on an object
(`KeyError` when absent), `TypeError` on a non-object. -/
def jIndex (v : JVal) (k : String) : Except PyErr JVal :=
  match v with
  | .obj fs =>
    match fs.find? (fun kv => kv.1 == k) with
    | some kv => .ok kv.2
    | none => .error .keyError
  | .prim => .error .typeError

/-- Python `v.keys()`: field names of an object, `AttributeError` on a
non-object. -/
def jKeys (v : JVal) : Except PyErr (List String) :=
  match v with
  | .obj fs => .ok (fs.map (·.1))
  | .prim => .error .attributeError

/-- Line 63 of `linter.py`: the lookup chain
`path_item["post"]["requestBody"]["content"]["application/json"]["schema"]["properties"]`
starting from the value of `"post"`, followed by `.keys()`. -/
def bodyProps (post : JVal) : Except PyErr (List String) := do
  let a ← jIndex post "requestBody"
  let b ← jIndex a "content"
  let c ← jIndex b "application/json"
  let d ← jIndex c "schema"
  let e ← jIndex d "properties"
  jKeys e

/-- One element of a path item's `"parameters"` list: `param.get("in")`
and `param["name"]` (modelled on inputs where `"name"` is present). -/
structure SpecParam where
  inLoc : Option String
  name : String
deriving DecidableEq

/-- One value of the spec's `"paths"` table: its `"post"` entry when
present, and `path_item.get("parameters", [])`. -/
structure PathItem where
  post : Option JVal
  parameters : List SpecParam

/-- The spec document after `json.load`: its `"paths"` table in
document order. -/
structure SpecDoc where
  paths : List (String × PathItem)

/-- Lines 69-71 of `linter.py`: names of parameters declared with
`"in": "path"`. -/
def pathParams (ps : List SpecParam) : Finset String :=
  ((ps.filter (fun p => p.inLoc == some "path")).map (·.name)).toFinset

/-- Lines 44-75 of `linter.py` (`parse_api_spec`), after `json.load`:
for each path, normalize it; when a `"post"` entry is present, collect
the request-body property names (`except KeyError: pass` yields the
empty set; any other error propagates), add the in-path parameter
names, and store the set under the normalized path. Paths with no
`"post"` entry are omitted. -/
def parse_api_spec (doc : SpecDoc) : Except PyErr RouteTable :=
  doc.paths.foldlM
    (fun eps pp =>
      let normalized := normalize pp.1
      match pp.2.post with
      | none => .ok eps
      | some post =>
        match bodyProps post with
        | .ok ks =>
          .ok (dictInsert eps normalized (ks.toFinset ∪ pathParams pp.2.parameters))
        | .error .keyError =>
          .ok (dictInsert eps normalized ((∅ : ParamSet) ∪ pathParams pp.2.parameters))
        | .error e => .error e)
    []

/-- One finding of the reconciliation loop: a code-only route flagged
by the `create_user` check (line 98), or a parameter in code but not in
the spec (line 113). -/
inductive Mismatch where
  | missingRoute (route : String)
  | extraInCode (route : String) (param : String)
deriving DecidableEq

/-- Lines 95-114 of `linter.py`, for one code-table entry: when the
path is absent from the spec table, flag it iff `"create_user" in path`;
otherwise emit one `extraInCode` finding per element of
`code_params - spec_params` whose name is not a substring of the path. -/
def routeMismatches (specT : RouteTable) (path : String) (codeParams : ParamSet) :
    Finset Mismatch :=
  match dictGet specT path with
  | none =>
    if strIn "create_user" path then {Mismatch.missingRoute path} else ∅
  | some specParams =>
    ((codeParams \ specParams).filter (fun p => strIn p path = false)).image
      (Mismatch.extraInCode path)

/-- The reconciliation loop of `run_linter` over the whole code table;
`mismatch_found` in the source is `reconcile ≠ ∅`. -/
def reconcile (codeT specT : RouteTable) : Finset Mismatch :=
  codeT.foldl (fun acc kv => acc ∪ routeMismatches specT kv.1 kv.2) ∅

/-- Lines 79-122 of `linter.py` (`run_linter`): run both extractors
(any exception yields `(False, 1)` before any comparison), then the
reconciliation loop; return `(True, 0)` when no mismatch was found and
`(False, 1)` otherwise. -/
def run_linter (tree : List FunctionDef) (doc : SpecDoc) : Bool × Nat :=
  match parse_api_routes tree, parse_api_spec doc with
  | .ok cr, .ok se => if reconcile cr se = ∅ then (true, 0) else (false, 1)
  | .error _, _ => (false, 1)
  | .ok _, .error _ => (false, 1)

/-- A `@app.route(p, ...)` decorator with a static string literal path. -/
def routeDec (p : String) : Decorator :=
  Decorator.call true "route" [PyExpr.constStr p]

/-- `src/sample_code.py`: its `FunctionDef` nodes in walk order. The
`methods=[...]` keyword arguments are not positional arguments and do
not appear in `decorator.args`. -/
def sample_code : List FunctionDef :=
  [ ⟨"get_user", ["user_id"], [routeDec "/user/<int:user_id>"]⟩,
    ⟨"create_user", ["username", "email", "password"], [routeDec "/user"]⟩,
    ⟨"health_check", [], [routeDec "/health"]⟩,
    ⟨"not_an_api_route", [], []⟩ ]

/-- Scenario B spec document: `POST /user` with body-schema properties
`username` and `email`. -/
def specB : SpecDoc :=
  ⟨[("/user",
     ⟨some (JVal.obj
        [("requestBody", JVal.obj
          [("content", JVal.obj
            [("application/json", JVal.obj
              [("schema", JVal.obj
                [("properties", JVal.obj
                  [("username", JVal.prim), ("email", JVal.prim)])])])])])]),
      []⟩)]⟩

/-- The empty spec document (`"paths": \x7b\x7d`). -/
def emptySpec : SpecDoc := ⟨[]⟩

/-- A spec document whose single path uses the curly-brace parameter
convention and declares an in-path parameter `user_id`, with an empty
`"post"` object. -/
def specC2 : SpecDoc :=
  ⟨[("/user/\x7buser_id\x7d",
     ⟨some (JVal.obj []), [⟨some "path", "user_id"⟩]⟩)]⟩

/-- A file whose only decorated function is a method: its declared
parameter list starts with the receiver `self`. -/
def cexC7Tree : List FunctionDef :=
  [⟨"update_user", ["self", "user_id"], [routeDec "/u"]⟩]

/-- A file whose only decorated function passes a bare name (a runtime
value, not a string literal) to `.route(...)`. -/
def cexC5Tree : List FunctionDef :=
  [⟨"handler", [], [Decorator.call true "route" [PyExpr.nameExpr "DYNAMIC_PATH"]]⟩]

/-- A file whose only route, `/user`, is handled by a function named
`create_user`: the creation-intent marker is in the handler name but
not in the path. -/
def cexC3Tree : List FunctionDef :=
  [⟨"create_user", ["u"], [routeDec "/user"]⟩]

/-- A file whose only route has the marker in its path but whose
handler name (`index`) contains no creation-intent marker. -/
def cexC3Tree2 : List FunctionDef :=
  [⟨"index", [], [routeDec "/admin/create_user"]⟩]

/-- A spec document whose single path has a `"post"` entry whose
`"schema"` value is a non-object JSON value. -/
def cexC6Doc : SpecDoc :=
  ⟨[("/thing",
     ⟨some (JVal.obj
        [("requestBody", JVal.obj
          [("content", JVal.obj
            [("application/json", JVal.obj
              [("schema", JVal.prim)])])])]),
      []⟩)]⟩

/-- C8: path normalization is a total function of the input string (it
is defined for every `p : String`) and is idempotent:
`normalize (normalize p) = normalize p`. -/
theorem C8_normalize_total_idempotent (p : String) :
    normalize (normalize p) = normalize p := by
  obtain ⟨l⟩ := p
  simp only [normalize, pyReplaceChar, List.map_map]
  congr 1
  apply List.map_congr_left
  intro c _
  by_cases h1 : c = '\x7b' <;> by_cases h2 : c = '\x7d' <;>
    simp [Function.comp, h1, h2]

/-- C2 counterexample: the code strips no type prefixes, so
`/user/<int:id>` and `/user/<id>` do not receive the same key, and
neither does `/user/\x7bid\x7d` match `/user/<int:id>`. -/
theorem C2_counterexample :
    normalize "/user/<int:id>" ≠ normalize "/user/<id>"
    ∧ normalize "/user/\x7bid\x7d" ≠ normalize "/user/<int:id>" := by decide

/-- C2 amended: normalization only rewrites curly braces to angle
brackets (spec side only); the two delimiter conventions without a type
prefix are identified, but a type prefix is kept, so a code route using
`<int:user_id>` and a spec path using `\x7buser_id\x7d` end up under
different keys. -/
theorem C2_amended :
    normalize "/user/\x7bid\x7d" = normalize "/user/<id>"
    ∧ normalize "/user/<int:id>" ≠ normalize "/user/<id>"
    ∧ parse_api_routes [⟨"get_user", ["user_id"], [routeDec "/user/<int:user_id>"]⟩]
        = Except.ok [("/user/<int:user_id>", {"user_id"})]
    ∧ parse_api_spec specC2 = Except.ok [("/user/<user_id>", {"user_id"})]
    ∧ ("/user/<int:user_id>" : String) ≠ "/user/<user_id>" := by decide

/-- C9: two decorated functions declaring the same raw path literal:
the resulting table maps the path to the parameter set of the later
function in scan order, discarding the earlier one. -/
theorem C9_last_writer_wins (n1 n2 : String) (a1 a2 : List String) (p : String) :
    parse_api_routes [⟨n1, a1, [routeDec p]⟩, ⟨n2, a2, [routeDec p]⟩]
      = Except.ok [(p, a2.toFinset)] := by
  simp [parse_api_routes, List.foldlM, visitDecorators, routeDec, firstArgValue,
    dictInsert, bind, Except.bind, pure, Except.pure]

/-- C7 counterexample: a decorated method whose declared parameter list
is `[self, user_id]` gets parameter set `{self, user_id}` — the
receiver `self` is included, not excluded. -/
theorem C7_counterexample :
    parse_api_routes cexC7Tree = Except.ok [("/u", {"self", "user_id"})]
    ∧ "self" ∈ ({"self", "user_id"} : ParamSet)
    ∧ ({"self", "user_id"} : ParamSet) ≠ {"user_id"} := by decide

/-- C7 amended: the parameter set recorded for a decorated handler is
exactly the declared positional-parameter names of `node.args.args`,
verbatim — including a method's receiver (e.g. `self`) when declared. -/
theorem C7_amended (n : String) (args : List String) (p : String) :
    parse_api_routes [⟨n, args, [routeDec p]⟩] = Except.ok [(p, args.toFinset)] := by
  simp [parse_api_routes, List.foldlM, visitDecorators, routeDec, firstArgValue,
    dictInsert]

/-- C10: a `.route()` decoration with zero positional arguments makes
the extractor raise `IndexError` (`decorator.args[0]`), so the whole
run aborts with exit code 1. -/
theorem C10_empty_args_aborts (n : String) (args : List String)
    (rest : List FunctionDef) (doc : SpecDoc) :
    parse_api_routes (⟨n, args, [Decorator.call true "route" []]⟩ :: rest)
        = Except.error PyErr.indexError
    ∧ run_linter (⟨n, args, [Decorator.call true "route" []]⟩ :: rest) doc
        = (false, 1) := by
  have h : parse_api_routes (⟨n, args, [Decorator.call true "route" []]⟩ :: rest)
      = Except.error PyErr.indexError := by
    simp [parse_api_routes, List.foldlM, visitDecorators, firstArgValue, bind, Except.bind]
  exact ⟨h, by simp [run_linter, h]⟩

/-- C5 counterexample: a `.route(...)` decoration whose first argument
is a bare name raises `AttributeError` (no `.value` on `ast.Name`), so
the extraction aborts and the run exits 1 — the route is not skipped
and the run does not continue. -/
theorem C5_counterexample :
    parse_api_routes cexC5Tree = Except.error PyErr.attributeError
    ∧ run_linter cexC5Tree emptySpec = (false, 1) := by decide

/-- C5 amended: a routing decoration whose first argument is not a
static string literal raises `AttributeError` during extraction,
aborting the entire code-table construction and making the run exit 1
(no per-route recovery). -/
theorem C5_amended (n : String) (args : List String) (pathVar : String)
    (rest : List FunctionDef) (doc : SpecDoc) :
    parse_api_routes
        (⟨n, args, [Decorator.call true "route" [PyExpr.nameExpr pathVar]]⟩ :: rest)
        = Except.error PyErr.attributeError
    ∧ run_linter
        (⟨n, args, [Decorator.call true "route" [PyExpr.nameExpr pathVar]]⟩ :: rest) doc
        = (false, 1) := by
  have h : parse_api_routes
      (⟨n, args, [Decorator.call true "route" [PyExpr.nameExpr pathVar]]⟩ :: rest)
      = Except.error PyErr.attributeError := by
    simp [parse_api_routes, List.foldlM, visitDecorators, firstArgValue, bind, Except.bind]
  exact ⟨h, by simp [run_linter, h]⟩

/-- C1: for a route key present in both tables, the reconciliation
emits one `extra-in-code` finding per element of
`codeParams - specParams` whose name is not a substring of the route
key (all others are suppressed); in scenario B exactly the mismatch
`extra-in-code, route=/user, param=password` is produced and the run
fails with exit code 1. -/
theorem C1_extra_in_code (specT : RouteTable) (path : String) (cp sp : ParamSet)
    (h : dictGet specT path = some sp) :
    routeMismatches specT path cp
      = ((cp \ sp).filter (fun q => strIn q path = false)).image
          (Mismatch.extraInCode path)
    ∧ reconcile [("/user", {"username", "email", "password"})]
        [("/user", {"username", "email"})]
      = {Mismatch.extraInCode "/user" "password"}
    ∧ run_linter sample_code specB = (false, 1) := by
  refine ⟨?_, by decide, by decide⟩
  simp [routeMismatches, h]

/-- Witness for C1 at scenario B's tables. -/
theorem C1_witness :
    routeMismatches [("/user", {"username", "email"})] "/user"
        {"username", "email", "password"}
      = ((({"username", "email", "password"} : ParamSet) \ {"username", "email"}).filter
          (fun q => strIn q "/user" = false)).image (Mismatch.extraInCode "/user")
    ∧ reconcile [("/user", {"username", "email", "password"})]
        [("/user", {"username", "email"})]
      = {Mismatch.extraInCode "/user" "password"}
    ∧ run_linter sample_code specB = (false, 1) :=
  C1_extra_in_code [("/user", {"username", "email"})] "/user"
    {"username", "email", "password"} {"username", "email"} (by decide)

/-- C3 counterexample: the code-only route `/user` whose handler is
named `create_user` (the marker occurs in the handler name) produces no
finding, while the code-only route `/admin/create_user` whose handler
name `index` contains no marker is flagged: the predicate tests the
path, not the handler name. -/
theorem C3_counterexample :
    strIn "create_user" "create_user" = true
    ∧ parse_api_routes cexC3Tree = Except.ok [("/user", {"u"})]
    ∧ reconcile [("/user", {"u"})] [] = ∅
    ∧ strIn "create_user" "index" = false
    ∧ parse_api_routes cexC3Tree2 = Except.ok [("/admin/create_user", ∅)]
    ∧ reconcile [("/admin/create_user", ∅)] []
        = {Mismatch.missingRoute "/admin/create_user"} := by decide

/-- C3 amended: a code-only route is surfaced as a failing finding
exactly when the substring `create_user` occurs in the route key (the
path); the handler's name plays no role (it is not even part of the
route table). -/
theorem C3_amended (specT : RouteTable) (path : String) (cp : ParamSet)
    (h : dictGet specT path = none) :
    routeMismatches specT path cp
      = (if strIn "create_user" path = true
         then {Mismatch.missingRoute path} else ∅) := by
  simp [routeMismatches, h]

/-- Witness for C3's amended statement on a flagged path. -/
theorem C3_amended_witness :
    routeMismatches [] "/admin/create_user" ∅
      = (if strIn "create_user" "/admin/create_user" = true
         then {Mismatch.missingRoute "/admin/create_user"} else ∅) :=
  C3_amended [] "/admin/create_user" ∅ (by decide)

/-- C4: the exit code is 0 exactly when the verdict passes; when both
extractions succeed the result is `(true, 0)` iff the reconciliation
found nothing, and any extraction failure on either side yields
`(false, 1)` without consulting the reconciliation. -/
theorem C4_exit_codes (tree : List FunctionDef) (doc : SpecDoc) :
    ((run_linter tree doc).2 = 0 ↔ (run_linter tree doc).1 = true)
    ∧ (∀ cr se, parse_api_routes tree = Except.ok cr →
        parse_api_spec doc = Except.ok se →
        run_linter tree doc
          = (if reconcile cr se = ∅ then (true, 0) else (false, 1)))
    ∧ (∀ e, parse_api_routes tree = Except.error e →
        run_linter tree doc = (false, 1))
    ∧ (∀ e, parse_api_spec doc = Except.error e →
        run_linter tree doc = (false, 1)) := by
  refine ⟨?_, ?_, ?_, ?_⟩
  · unfold run_linter
    rcases parse_api_routes tree with e | cr
    · simp
    · rcases parse_api_spec doc with e | se
      · simp
      · by_cases hm : reconcile cr se = ∅ <;> simp [hm]
  · intro cr se hr hs
    simp [run_linter, hr, hs]
  · intro e hr
    simp [run_linter, hr]
  · intro e hs
    unfold run_linter
    rcases parse_api_routes tree with e' | cr
    · simp
    · simp [hs]

/-- Witness for C4: scenario B for the success path, an empty-argument
decoration for a code-side failure, a non-object schema for a
spec-side failure. -/
theorem C4_witness :
    run_linter sample_code specB
      = (if reconcile
            [("/user/<int:user_id>", {"user_id"}),
             ("/user", {"username", "email", "password"}),
             ("/health", ∅)]
            [("/user", {"username", "email"})] = ∅
         then (true, 0) else (false, 1))
    ∧ run_linter [⟨"f", [], [Decorator.call true "route" []]⟩] emptySpec = (false, 1)
    ∧ run_linter [] cexC6Doc = (false, 1) :=
  ⟨(C4_exit_codes sample_code specB).2.1 _ _ (by decide) (by decide),
   (C4_exit_codes [⟨"f", [], [Decorator.call true "route" []]⟩] emptySpec).2.2.1
     PyErr.indexError (by decide),
   (C4_exit_codes [] cexC6Doc).2.2.2 PyErr.typeError (by decide)⟩

/-- C6 counterexample: a path item whose request-body `"schema"` value
is a non-object JSON value makes the spec extractor raise `TypeError`
(not caught by `except KeyError`), aborting the run with exit code 1
instead of contributing an empty parameter set. -/
theorem C6_counterexample :
    parse_api_spec cexC6Doc = Except.error PyErr.typeError
    ∧ run_linter [] cexC6Doc = (false, 1) := by decide

/-- C6 amended: a `KeyError` anywhere along the request-body property
chain (missing request body, missing `properties` key, …) contributes
the empty set — only the in-path parameters remain — and extraction
succeeds; but a non-object value along the chain raises `TypeError`
and the extractor fails. -/
theorem C6_amended (path : String) (ps : List SpecParam) (v : JVal) :
    (bodyProps v = Except.error PyErr.keyError →
      parse_api_spec ⟨[(path, ⟨some v, ps⟩)]⟩
        = Except.ok [(normalize path, pathParams ps)])
    ∧ (bodyProps v = Except.error PyErr.typeError →
      parse_api_spec ⟨[(path, ⟨some v, ps⟩)]⟩ = Except.error PyErr.typeError) := by
  constructor
  · intro h
    simp [parse_api_spec, List.foldlM, h, dictInsert, bind, Except.bind, pure,
      Except.pure]
  · intro h
    simp [parse_api_spec, List.foldlM, h, bind, Except.bind]

/-- Witness for C6's amended statement: a `"post"` object with no
request body succeeds with the empty set; a `"post"` value that is a
non-object fails with `TypeError`. -/
theorem C6_amended_witness :
    parse_api_spec ⟨[("/x", ⟨some (JVal.obj []), []⟩)]⟩
      = Except.ok [(normalize "/x", pathParams [])]
    ∧ parse_api_spec ⟨[("/y", ⟨some JVal.prim, []⟩)]⟩
      = Except.error PyErr.typeError :=
  ⟨(C6_amended "/x" [] (JVal.obj [])).1 (by decide),
   (C6_amended "/y" [] JVal.prim).2 (by decide)⟩

end ApiLinter
